import Mathlib

/-!
Verification of the wifi-analyzer frontend session logic.

This file shallowly embeds the session-coordination logic of the
repository's Svelte components:

* `src/components/PacketSniffer.svelte` — the packet-capture session
  (start/stop, poll tick, pagination, interface-change reset);
* `src/routes/+page.svelte` — the scan coordinator (`performScan`,
  the `uniqueNetworks` map merged by BSSID);
* `src/components/ChannelRating.svelte` — channel normalization
  (`normalizedData`) and quality classification (`getChannelQuality`,
  the recommendation branch of the table template).

External engine calls (`invoke` through the Tauri bridge) are modelled as
explicit outcome parameters: a call that may reject is an `Except Unit α`
(or a `Bool` success flag when the result value is unused), and each
handler becomes a pure state-transition function. `setInterval` handles
are modelled as an `Option Nat` holding the interval of the active timer
(`none` = no active timer, as after `clearInterval`). JS numbers that
hold occupancies are modelled as `ℚ`; packet timestamps as `ℤ`.
-/

namespace WifiAnalyzer

/-- `PacketInfo` from `src/utils/api.ts`: one captured packet. -/
structure PacketInfo where
  src_mac : String
  dst_mac : String
  src_ip : Option String
  dst_ip : Option String
  src_port : Option Nat
  dst_port : Option Nat
  protocol : String
  length : Nat
  payload : Option String
  timestamp : Int
deriving DecidableEq, Repr

/-- `WiFiNetwork` from `src/utils/api.ts`: one discovered network record. -/
structure WiFiNetwork where
  ssid : String
  bssid : String
  signal_quality : Nat
  frequency : Nat
  channel : Nat
  security : String
  avg_signal : Int
  beacon_count : Nat
  last_seen : Int
deriving DecidableEq, Repr

/-- `ChannelData` from `src/utils/api.ts`: per-channel occupancy. -/
structure ChannelData where
  channel : Nat
  occupancy : ℚ
deriving DecidableEq, Repr

/-! ## PacketSniffer.svelte: capture session state -/

/-- `const packetsPerPage = 10` in `PacketSniffer.svelte`. -/
def packetsPerPage : Nat := 10

/-- The interval passed to `setInterval(fetchLatestPackets, 3000)`
(milliseconds; 3 time-units of one second). -/
def pollIntervalMs : Nat := 3000

/-- The mutable component state of `PacketSniffer.svelte`.
`pollTimer` models the `updateInterval` timer: `some i` is an active
interval timer firing every `i` ms, `none` means no active timer. -/
structure SnifferState where
  allPackets : List PacketInfo
  displayedPackets : List PacketInfo
  selectedPacket : Option PacketInfo
  interfaceName : String
  isCapturing : Bool
  error : Option String
  pollTimer : Option Nat
  currentPage : Nat
deriving DecidableEq, Repr

/-- `updateDisplayedPackets`: `displayedPackets = allPackets.slice(startIndex,
startIndex + packetsPerPage)` with `startIndex = (currentPage - 1) * packetsPerPage`. -/
def updateDisplayedPackets (st : SnifferState) : SnifferState :=
  { st with displayedPackets :=
      ((st.allPackets.drop ((st.currentPage - 1) * packetsPerPage)).take packetsPerPage) }

/-- `startCapture`: awaits `startPacketCapture(interfaceName)`; on success sets
`isCapturing = true`, clears the error and starts the 3000 ms poll timer; on
rejection only sets the error message. `engineOk` is the outcome of the
external call. -/
def startCapture (st : SnifferState) (engineOk : Bool) : SnifferState :=
  if engineOk then
    { st with isCapturing := true, error := none, pollTimer := some pollIntervalMs }
  else
    { st with error := some "Failed to start packet capture. Please check your permissions and try again." }

/-- `stopCapture`: awaits `stopPacketCapture()`; on success sets
`isCapturing = false`, clears the error and clears the poll timer; on
rejection only sets the error message (the `catch` block touches nothing
else). -/
def stopCapture (st : SnifferState) (engineOk : Bool) : SnifferState :=
  if engineOk then
    { st with isCapturing := false, error := none, pollTimer := none }
  else
    { st with error := some "Failed to stop packet capture. The capture may have already been stopped." }

/-- The comparator `(a, b) => b.timestamp - a.timestamp` of `fetchLatestPackets`:
a stable sort by timestamp descending. -/
def sortNewestFirst (l : List PacketInfo) : List PacketInfo :=
  l.mergeSort (fun a b => b.timestamp ≤ a.timestamp)

/-- `fetchLatestPackets`: awaits `getLatestPackets()`; on success with a
non-empty batch, appends it to `allPackets`, re-sorts newest-first and
refreshes the displayed slice; on rejection only logs (the `catch` block
changes no state). `result` is the outcome of the external call. -/
def fetchLatestPackets (st : SnifferState) (result : Except Unit (List PacketInfo)) :
    SnifferState :=
  match result with
  | Except.error _ => st
  | Except.ok newPackets =>
      if 0 < newPackets.length then
        updateDisplayedPackets { st with allPackets := sortNewestFirst (st.allPackets ++ newPackets) }
      else st

/-- The reactive statement `$: if (interfaceName) { allPackets = []; currentPage = 1;
displayedPackets = []; selectedPacket = null; }`, triggered by assigning
`interfaceName`. The guard is JS truthiness: it fires iff the new name is
non-empty. Nothing else (timer, `isCapturing`) is touched. -/
def interfaceChanged (st : SnifferState) (newName : String) : SnifferState :=
  let st1 := { st with interfaceName := newName }
  if st1.interfaceName = "" then st1
  else { st1 with allPackets := [], currentPage := 1, displayedPackets := [],
                  selectedPacket := none }

/-- `$: totalPages = Math.ceil(allPackets.length / packetsPerPage)`.
On natural buffer lengths `Math.ceil(L / p)` is the ceiling division
`(L + p - 1) / p`. -/
def totalPages (st : SnifferState) : Nat :=
  (st.allPackets.length + packetsPerPage - 1) / packetsPerPage

/-- Modelled from the spec: `totalPages = max(1, ceil(L/p))`, the page-count
formula the spec states (minimum 1 when the buffer is empty). -/
def totalPagesSpec (bufferLength : Nat) : Nat :=
  max 1 ((bufferLength + packetsPerPage - 1) / packetsPerPage)

/-! ## +page.svelte: scan coordination and the uniqueNetworks map -/

/-- The `uniqueNetworks : Map<string, WiFiNetwork>` of `+page.svelte`,
modelled as an association list in key-insertion order (JS `Map` iteration
order: `set` on an existing key overwrites the value in place, `set` on a
fresh key appends). -/
abbrev NetMap := List (String × WiFiNetwork)

/-- JS `Map.prototype.set`: overwrite the value at an existing key in
place, otherwise append the new entry. -/
def mapSet (m : NetMap) (k : String) (v : WiFiNetwork) : NetMap :=
  match m with
  | [] => [(k, v)]
  | (k0, v0) :: rest => if k0 = k then (k, v) :: rest else (k0, v0) :: mapSet rest k v

/-- JS `Map.prototype.get` (first — and, with unique keys, only — match). -/
def mapLookup (m : NetMap) (k : String) : Option WiFiNetwork :=
  match m with
  | [] => none
  | (k0, v0) :: rest => if k0 = k then some v0 else mapLookup rest k

/-- `uniqueNetworks.set(network.bssid, network)`: the store upsert. -/
def upsert (m : NetMap) (network : WiFiNetwork) : NetMap :=
  mapSet m network.bssid network

/-- One progress-event handler body / final-result merge:
`batch.forEach(network => uniqueNetworks.set(network.bssid, network))`. -/
def mergeBatch (m : NetMap) (batch : List WiFiNetwork) : NetMap :=
  batch.foldl upsert m

/-- The last observation of identity `k` in an arrival-ordered list of
observations (the record a last-write-wins merge must keep). -/
def lastObs (obs : List WiFiNetwork) (k : String) : Option WiFiNetwork :=
  match obs with
  | [] => none
  | n :: rest =>
      match lastObs rest k with
      | some v => some v
      | none => if n.bssid = k then some n else none

/-- The `uniqueNetworks` map at the end of a successful `performScan` run:
the progress batches are merged in arrival order, then the final result
batch is merged iff it is non-empty (`if (finalNetworks && finalNetworks.length > 0)`). -/
def performScanMerge (progress : List (List WiFiNetwork)) (final : List WiFiNetwork) :
    NetMap :=
  let m := progress.foldl mergeBatch []
  if 0 < final.length then mergeBatch m final else m

/-- Observable outcome of one `performScan()` run. -/
structure ScanRun where
  store : NetMap
  unsubscribed : Bool
  isScanning : Bool
deriving DecidableEq, Repr

/-- `performScan` of `+page.svelte`, as a function of the externally
determined outcomes: the progress batches delivered while awaiting,
the result of `scanWifi()` (`Except.error` = the promise rejected), and
whether the `getChannelData` call succeeds when it is made.

Control flow of the source: the listener is subscribed; progress batches
are merged as they arrive; `await scanWifi()` — a rejection jumps to
`catch`, skipping `unlisten()`; on success a non-empty final batch is
merged; `getChannelData(networks)` is awaited iff `networks.length > 0`,
and a rejection again jumps to `catch`, skipping `unlisten()`; only then
is `unlisten()` reached. `finally` always clears `isScanning`. -/
def performScan (progress : List (List WiFiNetwork))
    (scanResult : Except Unit (List WiFiNetwork)) (chanOk : Bool) : ScanRun :=
  let m := progress.foldl mergeBatch []
  match scanResult with
  | Except.error _ => { store := m, unsubscribed := false, isScanning := false }
  | Except.ok finalNetworks =>
      let m2 := if 0 < finalNetworks.length then mergeBatch m finalNetworks else m
      if 0 < m2.length then
        if chanOk then { store := m2, unsubscribed := true, isScanning := false }
        else { store := m2, unsubscribed := false, isScanning := false }
      else { store := m2, unsubscribed := true, isScanning := false }

/-! ## ChannelRating.svelte: channel normalization and classification -/

/-- `$: normalizedData = Array.from({ length: 13 }, (_, i) => { const existing =
channelData.find(d => d.channel === i + 1); return existing || { channel: i + 1,
occupancy: 0 }; })`. A found record is an object, hence truthy. -/
def normalizedData (channelData : List ChannelData) : List ChannelData :=
  (List.range 13).map (fun i =>
    match channelData.find? (fun d => d.channel == i + 1) with
    | some existing => existing
    | none => { channel := i + 1, occupancy := 0 })

/-- `getChannelQuality` of `ChannelRating.svelte`. -/
def getChannelQuality (occupancy : ℚ) : String :=
  if occupancy < 3 / 10 then "Excellent"
  else if occupancy < 5 / 10 then "Good"
  else if occupancy < 7 / 10 then "Fair"
  else "Poor"

/-- The recommendation branch of the `ChannelRating.svelte` table template:
`{#if channel.occupancy < 0.3} Recommended, low traffic {:else if
channel.occupancy >= 0.7} Avoid - high congestion {:else} Usable with
caution {/if}`. -/
def channelRecommendation (occupancy : ℚ) : String :=
  if occupancy < 3 / 10 then "Recommended, low traffic"
  else if occupancy ≥ 7 / 10 then "Avoid - high congestion"
  else "Usable with caution"

/-! ## Sample values for concrete evaluations -/

/-- A sample captured packet. -/
def pktEx : PacketInfo :=
  ⟨"aa:bb:cc:dd:ee:01", "aa:bb:cc:dd:ee:02", some "192.168.0.2", some "192.168.0.1",
    some 443, some 51234, "TCP", 60, none, 5⟩

/-- Sample observation: network A seen on channel 6. -/
def netA6 : WiFiNetwork :=
  ⟨"NetA", "aa:aa:aa:aa:aa:aa", 70, 2437, 6, "WPA2", -50, 10, 100⟩

/-- Sample observation: network B seen on channel 6. -/
def netB6 : WiFiNetwork :=
  ⟨"NetB", "bb:bb:bb:bb:bb:bb", 60, 2437, 6, "WPA2", -55, 8, 100⟩

/-- Sample observation: network A seen again, now on channel 11. -/
def netA11 : WiFiNetwork :=
  ⟨"NetA", "aa:aa:aa:aa:aa:aa", 80, 2462, 11, "WPA2", -45, 12, 200⟩

end WifiAnalyzer

namespace WifiAnalyzer

/-! ## Association-map lemmas (the JS `Map` model) -/

theorem mapLookup_mapSet (m : NetMap) (k : String) (v : WiFiNetwork) (a : String) :
    mapLookup (mapSet m k v) a = if k = a then some v else mapLookup m a := by
  induction m with
  | nil => simp [mapSet, mapLookup]
  | cons hd tl ih =>
      obtain ⟨k0, v0⟩ := hd
      by_cases h : k0 = k
      · subst h
        by_cases h2 : k0 = a <;> simp [mapSet, mapLookup, h2]
      · by_cases h2 : k0 = a
        · subst h2
          have hka : ¬ k = k0 := fun hk => h hk.symm
          simp [mapSet, mapLookup, h, hka]
        · simp [mapSet, mapLookup, h, h2, ih]

/-- The keys of the `uniqueNetworks` map. -/
theorem mem_mapKeys_mapSet (m : NetMap) (k : String) (v : WiFiNetwork) (a : String) :
    a ∈ (mapSet m k v).map Prod.fst ↔ a = k ∨ a ∈ m.map Prod.fst := by
  induction m with
  | nil => simp [mapSet]
  | cons hd tl ih =>
      obtain ⟨k0, v0⟩ := hd
      by_cases h : k0 = k
      · subst h
        simp [mapSet]
      · simp [mapSet, h, ih]
        tauto

theorem nodup_mapKeys_mapSet (m : NetMap) (k : String) (v : WiFiNetwork)
    (hm : (m.map Prod.fst).Nodup) : ((mapSet m k v).map Prod.fst).Nodup := by
  induction m with
  | nil => simp [mapSet]
  | cons hd tl ih =>
      obtain ⟨k0, v0⟩ := hd
      simp only [List.map_cons, List.nodup_cons] at hm
      by_cases h : k0 = k
      · subst h
        have hset : mapSet ((k0, v0) :: tl) k0 v = (k0, v) :: tl := by simp [mapSet]
        rw [hset, List.map_cons, List.nodup_cons]
        exact hm
      · simp only [mapSet, h, if_false, List.map_cons, List.nodup_cons]
        refine ⟨?_, ih hm.2⟩
        rw [mem_mapKeys_mapSet]
        rintro (rfl | hmem)
        · exact h rfl
        · exact hm.1 hmem

theorem nodup_mapKeys_mergeBatch (batch : List WiFiNetwork) (m : NetMap)
    (hm : (m.map Prod.fst).Nodup) : ((mergeBatch m batch).map Prod.fst).Nodup := by
  induction batch generalizing m with
  | nil => exact hm
  | cons n rest ih => exact ih (upsert m n) (nodup_mapKeys_mapSet m n.bssid n hm)

theorem nodup_mapKeys_foldl (batches : List (List WiFiNetwork)) (m : NetMap)
    (hm : (m.map Prod.fst).Nodup) :
    ((batches.foldl mergeBatch m).map Prod.fst).Nodup := by
  induction batches generalizing m with
  | nil => exact hm
  | cons b bs ih => exact ih (mergeBatch m b) (nodup_mapKeys_mergeBatch b m hm)

theorem mapLookup_of_mem (m : NetMap) (e : String × WiFiNetwork)
    (hm : (m.map Prod.fst).Nodup) (he : e ∈ m) : mapLookup m e.1 = some e.2 := by
  induction m with
  | nil => cases he
  | cons hd tl ih =>
      obtain ⟨k0, v0⟩ := hd
      simp only [List.map_cons, List.nodup_cons] at hm
      rcases List.mem_cons.mp he with h | h
      · subst h
        simp [mapLookup]
      · have hne : k0 ≠ e.1 := by
          intro hk
          exact hm.1 (hk ▸ (List.mem_map.mpr ⟨e, h, rfl⟩))
        simp [mapLookup, hne]
        exact ih hm.2 h

theorem mapLookup_mergeBatch (batch : List WiFiNetwork) (m : NetMap) (k : String) :
    mapLookup (mergeBatch m batch) k =
      match lastObs batch k with
      | some v => some v
      | none => mapLookup m k := by
  induction batch generalizing m with
  | nil => simp [mergeBatch, lastObs]
  | cons n rest ih =>
      have step : mergeBatch m (n :: rest) = mergeBatch (upsert m n) rest := rfl
      rw [step, ih (upsert m n)]
      unfold upsert
      cases h : lastObs rest k with
      | some v => simp [lastObs, h]
      | none =>
          by_cases hb : n.bssid = k <;> simp [lastObs, h, hb, mapLookup_mapSet]

theorem lastObs_append (a b : List WiFiNetwork) (k : String) :
    lastObs (a ++ b) k =
      match lastObs b k with
      | some v => some v
      | none => lastObs a k := by
  induction a with
  | nil =>
      cases h : lastObs b k <;> simp [lastObs, h]
  | cons n rest ih =>
      show lastObs (n :: (rest ++ b)) k = _
      rw [lastObs, ih]
      cases h : lastObs b k <;> cases h2 : lastObs rest k <;> simp [lastObs, h, h2]

theorem mapLookup_foldl_mergeBatch (batches : List (List WiFiNetwork)) (m : NetMap)
    (k : String) :
    mapLookup (batches.foldl mergeBatch m) k =
      match lastObs batches.flatten k with
      | some v => some v
      | none => mapLookup m k := by
  induction batches generalizing m with
  | nil => simp [lastObs]
  | cons b bs ih =>
      have step : (b :: bs).foldl mergeBatch m = bs.foldl mergeBatch (mergeBatch m b) := rfl
      rw [step, ih (mergeBatch m b), mapLookup_mergeBatch]
      have hj : (b :: bs).flatten = b ++ bs.flatten := rfl
      rw [hj, lastObs_append]
      cases h : lastObs bs.flatten k <;> cases h2 : lastObs b k <;> simp [h, h2]

theorem lastObs_eq_none_iff (obs : List WiFiNetwork) (k : String) :
    lastObs obs k = none ↔ ∀ n ∈ obs, n.bssid ≠ k := by
  induction obs with
  | nil => simp [lastObs]
  | cons n rest ih =>
      cases h : lastObs rest k with
      | some v =>
          have hstep : lastObs (n :: rest) k = some v := by simp [lastObs, h]
          rw [hstep]
          constructor
          · intro hfalse; exact Option.noConfusion hfalse
          · intro hall
            have hnone : lastObs rest k = none :=
              ih.mpr (fun n' hn' => hall n' (List.mem_cons_of_mem _ hn'))
            rw [h] at hnone
            exact Option.noConfusion hnone
      | none =>
          have hstep : lastObs (n :: rest) k = if n.bssid = k then some n else none := by
            simp [lastObs, h]
          rw [hstep]
          by_cases hb : n.bssid = k
          · rw [if_pos hb]
            constructor
            · intro hfalse; exact Option.noConfusion hfalse
            · intro hall
              exact ((hall n (List.mem_cons_self n rest)) hb).elim
          · rw [if_neg hb]
            constructor
            · intro _ n' hn'
              rcases List.mem_cons.mp hn' with h' | h'
              · rw [h']; exact hb
              · exact (ih.mp h) n' h'
            · intro _; rfl

/-! ## Claim theorems -/

/-- Claim C1, counterexample: in a `Capturing` state with an active poll
timer, when the external engine's stop call fails, `stopCapture` leaves
the session `Capturing` and the poll timer running — it does not
transition to `Idle` and does not halt polling. -/
theorem stopCapture_failure_cex :
    (stopCapture ⟨[], [], none, "wlan0", true, none, some 3000, 1⟩ false).isCapturing = true ∧
    (stopCapture ⟨[], [], none, "wlan0", true, none, some 3000, 1⟩ false).pollTimer = some 3000 :=
  ⟨rfl, rfl⟩

/-- Claim C1 (amended): `stopCapture` transitions to `Idle` and halts the
poll timer exactly when the external engine's stop call succeeds, and on
that outcome it is idempotent with respect to local state; when the stop
call fails, the local capture status, the poll timer and the packet
buffer are all left unchanged (only the error message is set). -/
theorem stopCapture_behavior (st : SnifferState) :
    ((stopCapture st true).isCapturing = false ∧ (stopCapture st true).pollTimer = none) ∧
    stopCapture (stopCapture st true) true = stopCapture st true ∧
    ((stopCapture st false).isCapturing = st.isCapturing ∧
      (stopCapture st false).pollTimer = st.pollTimer ∧
      (stopCapture st false).allPackets = st.allPackets) :=
  ⟨⟨rfl, rfl⟩, rfl, rfl, rfl, rfl⟩

/-- Claim C2, counterexample: for the empty packet buffer the computed
total number of pages is `0`, not the `max(1, ceil(L/p)) = 1` the claim
states. -/
theorem totalPages_empty_cex :
    totalPages ⟨[], [], none, "wlan0", false, none, none, 1⟩ = 0 ∧
    totalPagesSpec 0 = 1 ∧
    totalPages ⟨[], [], none, "wlan0", false, none, none, 1⟩ ≠ totalPagesSpec 0 :=
  ⟨rfl, rfl, by decide⟩

/-- Claim C2 (amended): the computed total number of pages is
`ceil(L/p)` with no minimum clamp: it agrees with `max(1, ceil(L/p))`
for every non-empty buffer, but is `0` (not `1`) when the buffer is
empty. -/
theorem totalPages_behavior (st : SnifferState) :
    (0 < st.allPackets.length → totalPages st = totalPagesSpec st.allPackets.length) ∧
    (st.allPackets.length = 0 → totalPages st = 0) := by
  constructor
  · intro h
    unfold totalPages totalPagesSpec packetsPerPage
    omega
  · intro h
    unfold totalPages packetsPerPage
    omega

/-- Claim C2, witness: a buffer of 25 packets has `max(1, ceil(25/10)) = 3`
pages under both formulas. -/
theorem totalPages_behavior_witness :
    0 < (SnifferState.mk (List.replicate 25 pktEx) [] none "wlan0" true none (some 3000) 1).allPackets.length ∧
    totalPages (SnifferState.mk (List.replicate 25 pktEx) [] none "wlan0" true none (some 3000) 1) =
      totalPagesSpec (SnifferState.mk (List.replicate 25 pktEx) [] none "wlan0" true none (some 3000) 1).allPackets.length ∧
    totalPages (SnifferState.mk (List.replicate 25 pktEx) [] none "wlan0" true none (some 3000) 1) = 3 :=
  ⟨by decide,
    (totalPages_behavior (SnifferState.mk (List.replicate 25 pktEx) [] none "wlan0" true none (some 3000) 1)).1 (by decide),
    by decide⟩

/-- Claim C3, counterexample: changing the selected interface while
`Idle` does not leave the packet buffer unchanged (it is discarded), and
changing it while `Capturing` does not halt the session's poll timer. -/
theorem interface_change_cex :
    (interfaceChanged ⟨[pktEx], [pktEx], none, "wlan0", false, none, none, 1⟩ "wlan1").allPackets = [] ∧
    (interfaceChanged ⟨[], [], none, "wlan0", true, none, some 3000, 1⟩ "wlan1").pollTimer = some 3000 :=
  ⟨rfl, rfl⟩

/-- Claim C3 (amended): changing the selected interface to any non-empty
name — while `Idle` just as while `Capturing` — discards the accumulated
and displayed packets, resets the page and the packet selection, and
updates the target interface; it never stops the polling timer and never
changes the capture status. -/
theorem interface_change_behavior (st : SnifferState) (newName : String)
    (h : newName ≠ "") :
    (interfaceChanged st newName).allPackets = [] ∧
    (interfaceChanged st newName).displayedPackets = [] ∧
    (interfaceChanged st newName).currentPage = 1 ∧
    (interfaceChanged st newName).selectedPacket = none ∧
    (interfaceChanged st newName).interfaceName = newName ∧
    (interfaceChanged st newName).pollTimer = st.pollTimer ∧
    (interfaceChanged st newName).isCapturing = st.isCapturing := by
  unfold interfaceChanged
  simp [h]

/-- Claim C3, witness: an interface change to the non-empty name
`"wlan1"` on a `Capturing` state with an active timer keeps the timer. -/
theorem interface_change_behavior_witness :
    "wlan1" ≠ "" ∧
    (interfaceChanged ⟨[pktEx], [pktEx], none, "wlan0", true, none, some 3000, 1⟩ "wlan1").pollTimer = some 3000 :=
  ⟨by decide,
    (interface_change_behavior ⟨[pktEx], [pktEx], none, "wlan0", true, none, some 3000, 1⟩ "wlan1" (by decide)).2.2.2.2.2.1⟩

/-- Claim C8: when the external engine's poll call fails, the tick
swallows the error: the capture status, the packet buffer, the displayed
page and the poll timer (hence the next scheduled tick) are all
unchanged. -/
theorem poll_failure_swallowed (st : SnifferState) :
    (fetchLatestPackets st (Except.error ())).isCapturing = st.isCapturing ∧
    (fetchLatestPackets st (Except.error ())).allPackets = st.allPackets ∧
    (fetchLatestPackets st (Except.error ())).displayedPackets = st.displayedPackets ∧
    (fetchLatestPackets st (Except.error ())).pollTimer = st.pollTimer :=
  ⟨rfl, rfl, rfl, rfl⟩

/-- Claim C9: starting from `Idle` with no timer, a rejected start leaves
the session `Idle` with no poll timer; a successful start transitions to
`Capturing` with a periodic poll timer of fixed interval 3000 ms = 3
seconds, whose successful non-empty ticks append the newly retrieved
packets to the buffer (up to the newest-first re-sort, a permutation of
the old buffer plus the new batch). -/
theorem startCapture_behavior (st : SnifferState) (h1 : st.isCapturing = false)
    (h2 : st.pollTimer = none) :
    ((startCapture st false).isCapturing = false ∧ (startCapture st false).pollTimer = none) ∧
    ((startCapture st true).isCapturing = true ∧
      (startCapture st true).pollTimer = some pollIntervalMs ∧ pollIntervalMs = 3 * 1000) ∧
    (∀ newPackets : List PacketInfo, 0 < newPackets.length →
      ((fetchLatestPackets (startCapture st true) (Except.ok newPackets)).allPackets).Perm
        ((startCapture st true).allPackets ++ newPackets)) := by
  refine ⟨⟨?_, ?_⟩, ⟨rfl, rfl, rfl⟩, ?_⟩
  · simpa [startCapture] using h1
  · simpa [startCapture] using h2
  · intro newPackets hps
    simp only [fetchLatestPackets, hps, if_true, updateDisplayedPackets, sortNewestFirst]
    exact List.mergeSort_perm _ _

/-- Claim C9, witness: from the idle state, a successful start is
`Capturing` with the 3000 ms timer, and a tick delivering one packet
appends it. -/
theorem startCapture_behavior_witness :
    (⟨[], [], none, "wlan0", false, none, none, 1⟩ : SnifferState).isCapturing = false ∧
    (⟨[], [], none, "wlan0", false, none, none, 1⟩ : SnifferState).pollTimer = none ∧
    (startCapture ⟨[], [], none, "wlan0", false, none, none, 1⟩ true).isCapturing = true ∧
    0 < [pktEx].length ∧
    ((fetchLatestPackets (startCapture ⟨[], [], none, "wlan0", false, none, none, 1⟩ true) (Except.ok [pktEx])).allPackets).Perm
      ((startCapture ⟨[], [], none, "wlan0", false, none, none, 1⟩ true).allPackets ++ [pktEx]) :=
  ⟨rfl, rfl,
    ((startCapture_behavior ⟨[], [], none, "wlan0", false, none, none, 1⟩ rfl rfl).2.1).1,
    by decide,
    (startCapture_behavior ⟨[], [], none, "wlan0", false, none, none, 1⟩ rfl rfl).2.2 [pktEx] (by decide)⟩

/-- Claim C4, counterexample: a run of `performScan` whose final scan
call fails jumps to the `catch` block before `unlisten()` is reached —
the progress-event subscription is not unsubscribed. -/
theorem performScan_leak_cex :
    (performScan [] (Except.error ()) true).unsubscribed = false := rfl

/-- Claim C4 (amended): the progress-event subscription is unsubscribed
only on the fully successful path: `unlisten()` runs iff the final scan
call succeeds and the subsequent channel-data call (made iff the merged
network set is non-empty) does not fail; when the final scan call — or
the channel-data call — rejects, the subscription leaks. -/
theorem performScan_unsubscribe_behavior (progress : List (List WiFiNetwork))
    (final : List WiFiNetwork) (chanOk : Bool) :
    ((performScan progress (Except.error ()) chanOk).unsubscribed = false) ∧
    ((performScan progress (Except.ok final) chanOk).store = performScanMerge progress final) ∧
    ((performScan progress (Except.ok final) chanOk).unsubscribed = true ↔
      ((performScanMerge progress final).length = 0 ∨ chanOk = true)) := by
  refine ⟨rfl, ?_, ?_⟩
  · simp only [performScan, performScanMerge]
    split_ifs <;> rfl
  · simp only [performScan, performScanMerge]
    cases chanOk <;> split_ifs with h <;> simp_all <;>
      exact List.length_pos.mp (by assumption)

/-- Claim C5: for every sequence of progress-event batches followed by a
final result batch, the merged `uniqueNetworks` map holds exactly one
record per distinct BSSID (its keys are pairwise distinct), the record
stored under any BSSID is precisely the last observation of that BSSID
in arrival order, and a BSSID is absent from the map exactly when it was
never observed. -/
theorem scan_merge_last_write_wins (progress : List (List WiFiNetwork))
    (final : List WiFiNetwork) :
    ((performScanMerge progress final).map Prod.fst).Nodup ∧
    (∀ k, mapLookup (performScanMerge progress final) k =
      lastObs (progress.flatten ++ final) k) ∧
    (∀ e ∈ performScanMerge progress final,
      lastObs (progress.flatten ++ final) e.1 = some e.2) ∧
    (∀ k, mapLookup (performScanMerge progress final) k = none ↔
      ∀ n ∈ progress.flatten ++ final, n.bssid ≠ k) := by
  have hnodup : ((performScanMerge progress final).map Prod.fst).Nodup := by
    simp only [performScanMerge]
    split_ifs with h
    · exact nodup_mapKeys_mergeBatch final _ (nodup_mapKeys_foldl progress [] (by simp))
    · exact nodup_mapKeys_foldl progress [] (by simp)
  have hlookup : ∀ k, mapLookup (performScanMerge progress final) k =
      lastObs (progress.flatten ++ final) k := by
    intro k
    simp only [performScanMerge]
    rw [lastObs_append]
    split_ifs with h
    · rw [mapLookup_mergeBatch, mapLookup_foldl_mergeBatch]
      cases hf : lastObs final k <;> cases hp : lastObs progress.flatten k <;>
        simp [mapLookup]
    · have hfe : final = [] := by
        cases final with
        | nil => rfl
        | cons a b => simp at h
      subst hfe
      rw [mapLookup_foldl_mergeBatch]
      cases hp : lastObs progress.flatten k <;> simp [lastObs, mapLookup]
  refine ⟨hnodup, hlookup, ?_, ?_⟩
  · intro e he
    rw [← hlookup e.1]
    exact mapLookup_of_mem _ e hnodup he
  · intro k
    rw [hlookup k]
    exact lastObs_eq_none_iff _ k

/-- Claim C5, witness: the spec scenario — progress batch `A@ch6, B@ch6`
followed by final batch `A@ch11`: A's later observation wins and B is
kept. -/
theorem scan_merge_last_write_wins_witness :
    (netB6.bssid, netB6) ∈ performScanMerge [[netA6, netB6]] [netA11] ∧
    lastObs ([[netA6, netB6]].flatten ++ [netA11]) netB6.bssid = some netB6 ∧
    mapLookup (performScanMerge [[netA6, netB6]] [netA11]) netA6.bssid = some netA11 :=
  ⟨by decide,
    (scan_merge_last_write_wins [[netA6, netB6]] [netA11]).2.2.1 (netB6.bssid, netB6) (by decide),
    by decide⟩

/-- The channel field of the `i`-th entry built by `normalizedData` is
always `i + 1`, whether it came from the input or from the default. -/
theorem normalizedEntry_channel (cd : List ChannelData) (i : Nat) :
    (match cd.find? (fun d : ChannelData => d.channel == i + 1) with
      | some existing => existing
      | none => ({ channel := i + 1, occupancy := 0 } : ChannelData)).channel = i + 1 := by
  cases h : cd.find? (fun d : ChannelData => d.channel == i + 1) with
  | none => rfl
  | some ex => simpa using List.find?_some h

/-- Claim C6: for every input list of channel data, `normalizedData` has
exactly 13 entries, one per channel 1..13 in ascending channel order,
and every channel with no input entry has occupancy exactly 0. -/
theorem normalizedData_total (channelData : List ChannelData) :
    (normalizedData channelData).length = 13 ∧
    (normalizedData channelData).map ChannelData.channel =
      [1, 2, 3, 4, 5, 6, 7, 8, 9, 10, 11, 12, 13] ∧
    (∀ e ∈ normalizedData channelData,
      (∀ d ∈ channelData, d.channel ≠ e.channel) → e.occupancy = 0) := by
  refine ⟨by simp [normalizedData], ?_, ?_⟩
  · rw [normalizedData, List.map_map]
    have hcong : (List.range 13).map (ChannelData.channel ∘ (fun i =>
        match channelData.find? (fun d : ChannelData => d.channel == i + 1) with
        | some existing => existing
        | none => { channel := i + 1, occupancy := 0 })) =
        (List.range 13).map (fun i => i + 1) :=
      List.map_congr_left (fun a _ => normalizedEntry_channel channelData a)
    rw [hcong]
    rfl
  · intro e he hno
    have he2 := he
    rw [normalizedData] at he2
    rcases List.mem_map.mp he2 with ⟨i, hi, hei⟩
    cases h : channelData.find? (fun d : ChannelData => d.channel == i + 1) with
    | some ex =>
        rw [h] at hei
        have hex : ex ∈ channelData := List.mem_of_find?_eq_some h
        have heq : ex = e := hei
        exact absurd (congrArg ChannelData.channel heq) (hno ex hex)
    | none =>
        rw [h] at hei
        have heq : ({ channel := i + 1, occupancy := 0 } : ChannelData) = e := hei
        rw [← heq]

/-- Claim C6, witness: with the single input `channel 6, occupancy 4/5`,
channel 1 has no input entry and reports occupancy 0. -/
theorem normalizedData_total_witness :
    (⟨1, 0⟩ : ChannelData) ∈ normalizedData [⟨6, 4/5⟩] ∧
    (∀ d : ChannelData, d ∈ ([⟨6, 4/5⟩] : List ChannelData) →
      d.channel ≠ (⟨1, (0 : ℚ)⟩ : ChannelData).channel) ∧
    (⟨1, (0 : ℚ)⟩ : ChannelData).occupancy = 0 :=
  ⟨by decide, by decide,
    (normalizedData_total [⟨6, 4/5⟩]).2.2 ⟨1, 0⟩ (by decide) (by decide)⟩

/-- Claim C7: on the occupancy domain `[0, 1]` the quality classification
is "Excellent" iff occupancy < 0.3, "Good" iff 0.3 ≤ occupancy < 0.5,
"Fair" iff 0.5 ≤ occupancy < 0.7 and "Poor" iff occupancy ≥ 0.7, and the
recommendation is the recommended one iff occupancy < 0.3, the avoid one
iff occupancy ≥ 0.7 and the usable-with-caution one otherwise. -/
theorem quality_thresholds (x : ℚ) (h0 : 0 ≤ x) (h1 : x ≤ 1) :
    (getChannelQuality x = "Excellent" ↔ x < 3 / 10) ∧
    (getChannelQuality x = "Good" ↔ 3 / 10 ≤ x ∧ x < 5 / 10) ∧
    (getChannelQuality x = "Fair" ↔ 5 / 10 ≤ x ∧ x < 7 / 10) ∧
    (getChannelQuality x = "Poor" ↔ 7 / 10 ≤ x) ∧
    (channelRecommendation x = "Recommended, low traffic" ↔ x < 3 / 10) ∧
    (channelRecommendation x = "Avoid - high congestion" ↔ 7 / 10 ≤ x) ∧
    (channelRecommendation x = "Usable with caution" ↔ 3 / 10 ≤ x ∧ x < 7 / 10) := by
  unfold getChannelQuality channelRecommendation
  split_ifs with ha hb hc hd he hf <;>
    refine ⟨?_, ?_, ?_, ?_, ?_, ?_, ?_⟩ <;>
    constructor <;>
    intro h' <;>
    first
      | rfl
      | exact absurd h' (by decide)
      | linarith
      | exact ⟨by linarith, by linarith⟩

/-- Claim C7, witness: occupancy 4/5 lies in `[0, 1]` and classifies as
"Poor" with the avoid recommendation. -/
theorem quality_thresholds_witness :
    (0 : ℚ) ≤ 4 / 5 ∧ (4 / 5 : ℚ) ≤ 1 ∧
    getChannelQuality (4 / 5) = "Poor" ∧
    channelRecommendation (4 / 5) = "Avoid - high congestion" :=
  ⟨by norm_num, by norm_num,
    (quality_thresholds (4 / 5) (by norm_num) (by norm_num)).2.2.2.1.mpr (by norm_num),
    (quality_thresholds (4 / 5) (by norm_num) (by norm_num)).2.2.2.2.2.1.mpr (by norm_num)⟩

/-- Claim C10: `upsert` is idempotent — upserting the same record twice
leaves the `uniqueNetworks` map exactly as after the first upsert: no
duplicate entry, all field values stable. -/
theorem upsert_idempotent (m : NetMap) (network : WiFiNetwork) :
    upsert (upsert m network) network = upsert m network := by
  unfold upsert
  induction m with
  | nil => simp [mapSet]
  | cons hd tl ih =>
      obtain ⟨k0, v0⟩ := hd
      by_cases h : k0 = network.bssid <;> simp [mapSet, h, ih]

end WifiAnalyzer
